import Mathlib

/-!
Shallow embedding of `src/drawing.rs` (macroquad-test).

The module is a thin 2D drawing layer: a `DrawContext` wraps a `QuadGl`
geometry batch, a megaui `Ui`, a font texture and a screen-coordinate mode.
Every call the module makes into the `QuadGl` batch (`texture`, `scissor`,
`geometry`, `draw`, `set_projection_matrix`) is recorded here as a command
appended to a trace `DrawContext.gl : List GlCommand`, in call order.

`f32` scalars are embedded as exact rationals `ℚ`; the transcendental
operations the code uses (`cos`, `sin`, `sqrt`) and the float constants
(`f32::EPSILON`, `std::f32::consts::PI`) are abstracted into a `FloatOps`
record passed to the functions that need them.
-/

/-- `quad_gl::Color`: an rgba colour (f32 components, embedded as ℚ). -/
structure Color where
  r : ℚ
  g : ℚ
  b : ℚ
  a : ℚ
deriving DecidableEq

/-- `quad_gl::Texture2D`: identified by a handle, with `width()` and
`height()` returning f32 (embedded as ℚ). -/
structure Texture2D where
  id : Nat
  width : ℚ
  height : ℚ
deriving DecidableEq

/-- `quad_gl::Vertex`: position (x, y, z), texture coordinates (u, v),
and a colour. -/
structure Vertex where
  x : ℚ
  y : ℚ
  z : ℚ
  u : ℚ
  v : ℚ
  color : Color
deriving DecidableEq

/-- `Vertex::new(x, y, z, u, v, color)`. -/
def Vertex.new (x y z u v : ℚ) (color : Color) : Vertex :=
  ⟨x, y, z, u, v, color⟩

/-- A column of a `glam::Mat4`. -/
structure Vec4 where
  x : ℚ
  y : ℚ
  z : ℚ
  w : ℚ
deriving DecidableEq

/-- `glam::Mat4`, column major. -/
structure Mat4 where
  x_axis : Vec4
  y_axis : Vec4
  z_axis : Vec4
  w_axis : Vec4
deriving DecidableEq

/-- `glam::Mat4::orthographic_rh_gl(left, right, bottom, top, near, far)`:
the standard OpenGL right-handed orthographic projection matrix. -/
def Mat4.orthographic_rh_gl (left right bottom top near far : ℚ) : Mat4 :=
  let a := 2 / (right - left)
  let b := 2 / (top - bottom)
  let c := -2 / (far - near)
  let tx := -(right + left) / (right - left)
  let ty := -(top + bottom) / (top - bottom)
  let tz := -(far + near) / (far - near)
  ⟨⟨a, 0, 0, 0⟩, ⟨0, b, 0, 0⟩, ⟨0, 0, c, 0⟩, ⟨tx, ty, tz, 1⟩⟩

/-- `megaui::Rect` (f32 fields, embedded as ℚ). -/
structure Rect where
  x : ℚ
  y : ℚ
  w : ℚ
  h : ℚ
deriving DecidableEq

/-- `megaui::DrawList`: one UI draw command — an optional clipping zone,
vertices and indices. -/
structure DrawList where
  clipping_zone : Option Rect
  vertices : List Vertex
  indices : List Nat
deriving DecidableEq

/-- One call made into the `QuadGl` batch. The embedding records the calls
the drawing module issues, in order, as a trace of these commands. -/
inductive GlCommand where
  | texture : Option Texture2D → GlCommand
  | scissor : Option (Int × Int × Int × Int) → GlCommand
  | geometry : List Vertex → List Nat → GlCommand
  | draw : GlCommand
  | set_projection_matrix : Mat4 → GlCommand
deriving DecidableEq

/-- Rust `f32 as i32`: truncation toward zero. -/
def f32ToI32 (q : ℚ) : Int :=
  if 0 ≤ q then ⌊q⌋ else ⌈q⌉

/-- The float operations and constants the module uses on `f32`, abstracted:
`cos`, `sin` (for `draw_circle`), `sqrt` and `f32::EPSILON` (for
`draw_line`), `std::f32::consts::PI`. -/
structure FloatOps where
  cos : ℚ → ℚ
  sin : ℚ → ℚ
  sqrt : ℚ → ℚ
  eps : ℚ
  pi : ℚ

/-- `megaui::Ui`, abstracted to the behaviour `drawing.rs` relies on:
`render_out` is the list of draw commands the next `render` call will push
into the buffer it is given, and `frames_started` counts `new_frame` calls. -/
structure Ui where
  render_out : List DrawList
  frames_started : Nat
deriving DecidableEq

/-- `megaui::Ui::render(&mut buf)`: pushes this frame's draw commands onto
the end of `buf`. -/
def Ui.render (ui : Ui) (buf : List DrawList) : List DrawList :=
  buf ++ ui.render_out

/-- `megaui::Ui::new_frame()`. -/
def Ui.new_frame (ui : Ui) : Ui :=
  { ui with frames_started := ui.frames_started + 1 }

/-- `ScreenCoordinates` from `drawing.rs`. -/
inductive ScreenCoordinates where
  | Fixed : ℚ → ℚ → ℚ → ℚ → ScreenCoordinates
  | PixelPerfect : ScreenCoordinates
deriving DecidableEq

/-- `DrawContext` from `drawing.rs`. The `gl : QuadGl` field becomes the
trace of commands issued to the batch so far. -/
structure DrawContext where
  font_texture : Texture2D
  gl : List GlCommand
  screen_coordinates : ScreenCoordinates
  ui : Ui
  ui_draw_list : List DrawList
deriving DecidableEq

/-- The two batch calls the body of `draw_ui`'s forwarding loop makes for
one UI draw command: set the scissor to the command's clipping zone cast to
`i32` (or clear it when absent), then enqueue the command's geometry. -/
def uiCommandTrace (cmd : DrawList) : List GlCommand :=
  [GlCommand.scissor (cmd.clipping_zone.map fun rect =>
      (f32ToI32 rect.x, f32ToI32 rect.y, f32ToI32 rect.w, f32ToI32 rect.h)),
   GlCommand.geometry cmd.vertices cmd.indices]

/-- `DrawContext::draw_ui`: clear and refill the persistent UI draw list,
swap it into a local, bind the font texture, forward each command
(scissor, then geometry), reset the texture, and swap the list back. -/
def DrawContext.draw_ui (ctx : DrawContext) : DrawContext :=
  let list0 : List DrawList := []
  let list1 := ctx.ui.render list0
  let ui1 := ctx.ui.new_frame
  let local0 : List DrawList := []
  let localList := list1
  let _selfList := local0
  let gl1 := ctx.gl ++ [GlCommand.texture (some ctx.font_texture)]
  let gl2 := localList.foldl (fun tr cmd => tr ++ uiCommandTrace cmd) gl1
  let gl3 := gl2 ++ [GlCommand.texture none]
  { ctx with gl := gl3, ui := ui1, ui_draw_list := localList }

/-- `DrawContext::draw_rectangle`. -/
def DrawContext.draw_rectangle (ctx : DrawContext) (x y w h : ℚ)
    (color : Color) : DrawContext :=
  let vertices := [
    Vertex.new x y 0 0 1 color,
    Vertex.new (x + w) y 0 1 0 color,
    Vertex.new (x + w) (y + h) 0 1 1 color,
    Vertex.new x (y + h) 0 0 0 color]
  let indices : List Nat := [0, 1, 2, 0, 2, 3]
  { ctx with gl := ctx.gl ++
      [GlCommand.texture none, GlCommand.geometry vertices indices] }

/-- `DrawContext::draw_texture`. -/
def DrawContext.draw_texture (ctx : DrawContext) (texture : Texture2D)
    (x y : ℚ) (color : Color) : DrawContext :=
  let w := texture.width
  let h := texture.height
  let vertices := [
    Vertex.new x y 0 0 0 color,
    Vertex.new (x + w) y 0 1 0 color,
    Vertex.new (x + w) (y + h) 0 1 1 color,
    Vertex.new x (y + h) 0 0 1 color]
  let indices : List Nat := [0, 1, 2, 0, 2, 3]
  { ctx with gl := ctx.gl ++
      [GlCommand.texture (some texture), GlCommand.geometry vertices indices] }

/-- `DrawContext::draw_rectangle_lines`: four filled rectangles. -/
def DrawContext.draw_rectangle_lines (ctx : DrawContext) (x y w h : ℚ)
    (color : Color) : DrawContext :=
  let c1 := ctx.draw_rectangle x y w 1 color
  let c2 := c1.draw_rectangle (x + w - 1) (y + 1) 1 (h - 2) color
  let c3 := c2.draw_rectangle x (y + h - 1) w 1 color
  c3.draw_rectangle x (y + 1) 1 (h - 2) color

/-- `DrawContext::draw_texture_rec`: draw a sub-rectangle of a texture,
texture coordinates obtained by dividing the source bounds by the
texture's size. -/
def DrawContext.draw_texture_rec (ctx : DrawContext) (texture : Texture2D)
    (x y w h sx sy sw sh : ℚ) (color : Color) : DrawContext :=
  let vertices := [
    Vertex.new x y 0 (sx / texture.width) (sy / texture.height) color,
    Vertex.new (x + w) y 0 ((sx + sw) / texture.width) (sy / texture.height) color,
    Vertex.new (x + w) (y + h) 0 ((sx + sw) / texture.width) ((sy + sh) / texture.height) color,
    Vertex.new x (y + h) 0 (sx / texture.width) ((sy + sh) / texture.height) color]
  let indices : List Nat := [0, 1, 2, 0, 2, 3]
  { ctx with gl := ctx.gl ++
      [GlCommand.texture (some texture), GlCommand.geometry vertices indices] }

/-- `DrawContext::draw_line`: build the segment's normal, compute
`tlen = |n| / (thickness / 2)`, return early when it is below
`f32::EPSILON`, otherwise enqueue the thick-line quad. -/
def DrawContext.draw_line (F : FloatOps) (ctx : DrawContext)
    (x1 y1 x2 y2 thickness : ℚ) (color : Color) : DrawContext :=
  let dx := x2 - x1
  let dy := y2 - y1
  let nx := -dy
  let ny := dx
  let tlen := F.sqrt (nx * nx + ny * ny) / (thickness * 0.5)
  if tlen < F.eps then
    ctx
  else
    let tx := nx / tlen
    let ty := ny / tlen
    { ctx with gl := ctx.gl ++
        [GlCommand.texture none,
         GlCommand.geometry
           [Vertex.new (x1 + tx) (y1 + ty) 0 0 0 color,
            Vertex.new (x1 - tx) (y1 - ty) 0 0 0 color,
            Vertex.new (x2 + tx) (y2 + ty) 0 0 0 color,
            Vertex.new (x2 - tx) (y2 - ty) 0 0 0 color]
           [0, 1, 2, 2, 1, 3]] }

/-- `NUM_DIVISIONS` from `draw_circle`. -/
def NUM_DIVISIONS : Nat := 20

/-- `DrawContext::draw_circle`: a triangle fan around the centre, built by
a loop over `0..NUM_DIVISIONS + 1` pushing one rim vertex per iteration and
one triangle per iteration except the last. -/
def DrawContext.draw_circle (F : FloatOps) (ctx : DrawContext)
    (x y r : ℚ) (color : Color) : DrawContext :=
  let init : List Vertex × List Nat :=
    ([Vertex.new x y 0 0 0 color], [])
  let vi := (List.range (NUM_DIVISIONS + 1)).foldl
    (fun (vi : List Vertex × List Nat) (i : Nat) =>
      let rx := F.cos ((i : ℚ) / (NUM_DIVISIONS : ℚ) * F.pi * 2)
      let ry := F.sin ((i : ℚ) / (NUM_DIVISIONS : ℚ) * F.pi * 2)
      let vertex := Vertex.new (x + r * rx) (y + r * ry) 0 rx ry color
      (vi.1 ++ [vertex],
       if i ≠ NUM_DIVISIONS then vi.2 ++ [0, i + 1, i + 2] else vi.2))
    init
  { ctx with gl := ctx.gl ++
      [GlCommand.texture none, GlCommand.geometry vi.1 vi.2] }

/-- `DrawContext::perform_render_passes`: forward the UI, then issue the
batched draw call. -/
def DrawContext.perform_render_passes (ctx : DrawContext) : DrawContext :=
  let ctx1 := ctx.draw_ui
  { ctx1 with gl := ctx1.gl ++ [GlCommand.draw] }

/-- `DrawContext::update_projection_matrix`: build the orthographic
projection for the current screen-coordinate mode from the context's
screen size and set it on the batch. -/
def DrawContext.update_projection_matrix (ctx : DrawContext)
    (width height : ℚ) : DrawContext :=
  let projection := match ctx.screen_coordinates with
    | ScreenCoordinates.PixelPerfect =>
        Mat4.orthographic_rh_gl 0 width height 0 (-1) 1
    | ScreenCoordinates.Fixed left right bottom top =>
        Mat4.orthographic_rh_gl left right bottom top (-1) 1
  { ctx with gl := ctx.gl ++ [GlCommand.set_projection_matrix projection] }

/-- One public primitive-drawing call on a `DrawContext`, with its
arguments. -/
inductive DrawOp where
  | rectangle (x y w h : ℚ) (color : Color)
  | texture (tex : Texture2D) (x y : ℚ) (color : Color)
  | rectangle_lines (x y w h : ℚ) (color : Color)
  | texture_rec (tex : Texture2D) (x y w h sx sy sw sh : ℚ) (color : Color)
  | line (x1 y1 x2 y2 thickness : ℚ) (color : Color)
  | circle (x y r : ℚ) (color : Color)

/-- Apply one primitive-drawing call. -/
def applyOp (F : FloatOps) (ctx : DrawContext) : DrawOp → DrawContext
  | DrawOp.rectangle x y w h c => ctx.draw_rectangle x y w h c
  | DrawOp.texture tex x y c => ctx.draw_texture tex x y c
  | DrawOp.rectangle_lines x y w h c => ctx.draw_rectangle_lines x y w h c
  | DrawOp.texture_rec tex x y w h sx sy sw sh c =>
      ctx.draw_texture_rec tex x y w h sx sy sw sh c
  | DrawOp.line x1 y1 x2 y2 t c => ctx.draw_line F x1 y1 x2 y2 t c
  | DrawOp.circle x y r c => ctx.draw_circle F x y r c

/-- Apply a sequence of primitive-drawing calls in order. -/
def applyOps (F : FloatOps) (ctx : DrawContext) (ops : List DrawOp) :
    DrawContext :=
  ops.foldl (applyOp F) ctx

/-- Whether a batch command is the actual draw call `QuadGl::draw`. -/
def isDraw : GlCommand → Bool
  | GlCommand.draw => true
  | _ => false

/-- Number of actual draw calls in a batch trace. -/
def drawCount (tr : List GlCommand) : Nat :=
  tr.countP isDraw

/-- Spec-side (for comparison with `draw_circle`): the angle of rim vertex
`i`, namely `2 * pi * i / NUM_DIVISIONS`, written exactly as the code
computes it. -/
def circleAngle (F : FloatOps) (i : Nat) : ℚ :=
  (i : ℚ) / (NUM_DIVISIONS : ℚ) * F.pi * 2

/-- Spec-side: rim vertex `i` of the circle fan, at distance `r` from the
centre in direction `circleAngle F i`. -/
def circleRimVertex (F : FloatOps) (x y r : ℚ) (color : Color) (i : Nat) :
    Vertex :=
  Vertex.new (x + r * F.cos (circleAngle F i)) (y + r * F.sin (circleAngle F i))
    0 (F.cos (circleAngle F i)) (F.sin (circleAngle F i)) color

/-- Spec-side: the circle fan's vertex list — the centre followed by the
`NUM_DIVISIONS + 1` rim vertices. -/
def circleVerticesSpec (F : FloatOps) (x y r : ℚ) (color : Color) :
    List Vertex :=
  Vertex.new x y 0 0 0 color ::
    (List.range (NUM_DIVISIONS + 1)).map (circleRimVertex F x y r color)

/-- Spec-side: the circle fan's index list — the triangles
`(0, i + 1, i + 2)` for `i = 0 .. NUM_DIVISIONS - 1`. -/
def circleIndicesSpec : List Nat :=
  ((List.range NUM_DIVISIONS).map (fun i => [0, i + 1, i + 2])).join

/-- A sample texture for concrete evaluations. -/
def tex0 : Texture2D := ⟨0, 16, 16⟩

/-- A sample colour for concrete evaluations. -/
def red0 : Color := ⟨1, 0, 0, 1⟩

/-- A sample UI state for concrete evaluations. -/
def ui0 : Ui := ⟨[], 0⟩

/-- A sample pixel-perfect context for concrete evaluations. -/
def ctx0 : DrawContext := ⟨tex0, [], ScreenCoordinates.PixelPerfect, ui0, []⟩

/-- Sample float operations for concrete evaluations: `cos` constantly 1,
`sin` constantly 0, `sqrt` constantly 0, with the true positive
`f32::EPSILON = 2 ^ (-23)` and the `f32` value of pi. -/
def F0 : FloatOps :=
  ⟨fun _ => 1, fun _ => 0, fun _ => 0, 1 / 8388608, 6.2831855⟩

/-! ## Helper lemmas -/

/-- A left fold that appends a chunk per element equals the initial trace
followed by the concatenation of the chunks. -/
theorem foldl_append_chunks {α β : Type} (g : α → List β) :
    ∀ (l : List α) (init : List β),
      l.foldl (fun tr cmd => tr ++ g cmd) init = init ++ (l.map g).join := by
  intro l
  induction l with
  | nil => intro init; simp
  | cons a t ih => intro init; simp [ih]

/-- The batch trace produced by `draw_ui`: bind the font texture, then the
scissor/geometry pair of each UI command in list order, then reset the
texture binding. -/
theorem draw_ui_gl_eq (ctx : DrawContext) :
    ctx.draw_ui.gl =
      ctx.gl ++ [GlCommand.texture (some ctx.font_texture)]
        ++ ((ctx.ui.render []).map uiCommandTrace).join
        ++ [GlCommand.texture none] := by
  simp [DrawContext.draw_ui, Ui.render, foldl_append_chunks]

/-- Counting draw calls distributes over trace concatenation. -/
theorem drawCount_append (t1 t2 : List GlCommand) :
    drawCount (t1 ++ t2) = drawCount t1 + drawCount t2 := by
  simp [drawCount, List.countP_append]

/-- `draw_rectangle` issues no draw call. -/
theorem drawCount_draw_rectangle (ctx : DrawContext) (x y w h : ℚ)
    (c : Color) :
    drawCount (ctx.draw_rectangle x y w h c).gl = drawCount ctx.gl := by
  simp [DrawContext.draw_rectangle, drawCount, List.countP_append,
    List.countP_cons, isDraw]

/-- `draw_texture` issues no draw call. -/
theorem drawCount_draw_texture (ctx : DrawContext) (tex : Texture2D)
    (x y : ℚ) (c : Color) :
    drawCount (ctx.draw_texture tex x y c).gl = drawCount ctx.gl := by
  simp [DrawContext.draw_texture, drawCount, List.countP_append,
    List.countP_cons, isDraw]

/-- `draw_rectangle_lines` issues no draw call. -/
theorem drawCount_draw_rectangle_lines (ctx : DrawContext) (x y w h : ℚ)
    (c : Color) :
    drawCount (ctx.draw_rectangle_lines x y w h c).gl = drawCount ctx.gl := by
  simp [DrawContext.draw_rectangle_lines, drawCount_draw_rectangle]

/-- `draw_texture_rec` issues no draw call. -/
theorem drawCount_draw_texture_rec (ctx : DrawContext) (tex : Texture2D)
    (x y w h sx sy sw sh : ℚ) (c : Color) :
    drawCount (ctx.draw_texture_rec tex x y w h sx sy sw sh c).gl =
      drawCount ctx.gl := by
  simp [DrawContext.draw_texture_rec, drawCount, List.countP_append,
    List.countP_cons, isDraw]

/-- `draw_line` issues no draw call. -/
theorem drawCount_draw_line (F : FloatOps) (ctx : DrawContext)
    (x1 y1 x2 y2 t : ℚ) (c : Color) :
    drawCount (ctx.draw_line F x1 y1 x2 y2 t c).gl = drawCount ctx.gl := by
  simp only [DrawContext.draw_line]
  split
  · rfl
  · simp [drawCount, List.countP_append, List.countP_cons, isDraw]

/-- `draw_circle` issues no draw call. -/
theorem drawCount_draw_circle (F : FloatOps) (ctx : DrawContext)
    (x y r : ℚ) (c : Color) :
    drawCount (ctx.draw_circle F x y r c).gl = drawCount ctx.gl := by
  simp [DrawContext.draw_circle, drawCount, List.countP_append,
    List.countP_cons, isDraw]

/-- No primitive-drawing call issues a draw call. -/
theorem drawCount_applyOp (F : FloatOps) (ctx : DrawContext) (op : DrawOp) :
    drawCount (applyOp F ctx op).gl = drawCount ctx.gl := by
  cases op with
  | rectangle x y w h c => exact drawCount_draw_rectangle ctx x y w h c
  | texture tex x y c => exact drawCount_draw_texture ctx tex x y c
  | rectangle_lines x y w h c => exact drawCount_draw_rectangle_lines ctx x y w h c
  | texture_rec tex x y w h sx sy sw sh c =>
      exact drawCount_draw_texture_rec ctx tex x y w h sx sy sw sh c
  | line x1 y1 x2 y2 t c => exact drawCount_draw_line F ctx x1 y1 x2 y2 t c
  | circle x y r c => exact drawCount_draw_circle F ctx x y r c

/-- The scissor/geometry chunk of a UI command holds no draw call. -/
theorem drawCount_uiCommandTrace (cmd : DrawList) :
    drawCount (uiCommandTrace cmd) = 0 := by
  simp [uiCommandTrace, drawCount, List.countP_cons, isDraw]

/-- The whole forwarded UI trace holds no draw call. -/
theorem drawCount_ui_join (l : List DrawList) :
    drawCount ((l.map uiCommandTrace).join) = 0 := by
  induction l with
  | nil => rfl
  | cons a t ih =>
      simp [drawCount_append, drawCount_uiCommandTrace, ih]

/-- `draw_ui` issues no draw call. -/
theorem drawCount_draw_ui (ctx : DrawContext) :
    drawCount ctx.draw_ui.gl = drawCount ctx.gl := by
  rw [draw_ui_gl_eq, drawCount_append, drawCount_append, drawCount_append,
    drawCount_ui_join]
  simp [drawCount, List.countP_cons, isDraw]

set_option maxHeartbeats 1000000 in
/-- The batch trace of `draw_circle`: the loop-built fan equals the
closed-form centre-plus-rim vertex list and triangle index list. -/
theorem draw_circle_gl_eq (F : FloatOps) (ctx : DrawContext) (x y r : ℚ)
    (c : Color) :
    (ctx.draw_circle F x y r c).gl =
      ctx.gl ++ [GlCommand.texture none,
        GlCommand.geometry (circleVerticesSpec F x y r c) circleIndicesSpec] := by
  simp [DrawContext.draw_circle, circleVerticesSpec, circleIndicesSpec,
    circleRimVertex, circleAngle, NUM_DIVISIONS, List.range_succ]

/-- Forwarding one UI command adds exactly two batch commands, so the whole
forwarded UI trace has twice as many commands as the draw list. -/
theorem ui_join_length (l : List DrawList) :
    ((l.map uiCommandTrace).join).length = 2 * l.length := by
  induction l with
  | nil => rfl
  | cons a t ih =>
      simp [uiCommandTrace, ih]
      ring

/-! ## Claims -/

/-- C1: for every screen size reported by the context,
`update_projection_matrix` sets the batch's projection matrix to the
right-handed orthographic matrix with bounds `(0, width, height, 0)` in
`PixelPerfect` mode, and with exactly the stored bounds in `Fixed` mode,
with `near = -1`, `far = 1` in both. -/
theorem update_projection_matrix_spec (ctx : DrawContext)
    (width height : ℚ) :
    (ctx.screen_coordinates = ScreenCoordinates.PixelPerfect →
      (ctx.update_projection_matrix width height).gl =
        ctx.gl ++ [GlCommand.set_projection_matrix
          (Mat4.orthographic_rh_gl 0 width height 0 (-1) 1)]) ∧
    (∀ left right bottom top,
      ctx.screen_coordinates = ScreenCoordinates.Fixed left right bottom top →
      (ctx.update_projection_matrix width height).gl =
        ctx.gl ++ [GlCommand.set_projection_matrix
          (Mat4.orthographic_rh_gl left right bottom top (-1) 1)]) := by
  constructor
  · intro h
    simp [DrawContext.update_projection_matrix, h]
  · intro l r b t h
    simp [DrawContext.update_projection_matrix, h]

/-- Witness for C1: a pixel-perfect context at screen size 800 × 600. -/
theorem update_projection_matrix_spec_witness :
    ctx0.screen_coordinates = ScreenCoordinates.PixelPerfect ∧
    (ctx0.update_projection_matrix 800 600).gl =
      ctx0.gl ++ [GlCommand.set_projection_matrix
        (Mat4.orthographic_rh_gl 0 800 600 0 (-1) 1)] :=
  ⟨rfl, (update_projection_matrix_spec ctx0 800 600).1 rfl⟩

/-- C2: `draw_rectangle` enqueues exactly 4 vertices at the rectangle's
corners in order, all with the given colour, with exactly the indices
`[0, 1, 2, 0, 2, 3]`, binding no texture before the geometry. -/
theorem draw_rectangle_spec (ctx : DrawContext) (x y w h : ℚ) (c : Color) :
    ∃ vs, (ctx.draw_rectangle x y w h c).gl =
        ctx.gl ++ [GlCommand.texture none,
          GlCommand.geometry vs [0, 1, 2, 0, 2, 3]] ∧
      vs.length = 4 ∧
      vs.map (fun v => (v.x, v.y)) =
        [(x, y), (x + w, y), (x + w, y + h), (x, y + h)] ∧
      ∀ v ∈ vs, v.color = c := by
  refine ⟨[Vertex.new x y 0 0 1 c, Vertex.new (x + w) y 0 1 0 c,
    Vertex.new (x + w) (y + h) 0 1 1 c, Vertex.new x (y + h) 0 0 0 c],
    rfl, rfl, rfl, ?_⟩
  intro v hv
  simp only [List.mem_cons, List.not_mem_nil, or_false] at hv
  rcases hv with h | h | h | h <;> subst h <;> rfl

/-- C3: no primitive-drawing operation, nor `draw_ui`, issues an actual
draw call to the graphics context — over any sequence of operations the
number of draw calls in the trace is unchanged — while
`perform_render_passes` issues exactly one. -/
theorem batch_draw_only_in_render_passes (F : FloatOps) (ops : List DrawOp)
    (ctx : DrawContext) :
    drawCount (applyOps F ctx ops).gl = drawCount ctx.gl ∧
    drawCount ctx.draw_ui.gl = drawCount ctx.gl ∧
    drawCount ctx.perform_render_passes.gl = drawCount ctx.gl + 1 := by
  refine ⟨?_, drawCount_draw_ui ctx, ?_⟩
  · induction ops generalizing ctx with
    | nil => rfl
    | cons op t ih =>
        calc drawCount (applyOps F ctx (op :: t)).gl
            = drawCount (applyOps F (applyOp F ctx op) t).gl := rfl
          _ = drawCount (applyOp F ctx op).gl := ih _
          _ = drawCount ctx.gl := drawCount_applyOp F ctx op
  · show drawCount (ctx.draw_ui.gl ++ [GlCommand.draw]) = drawCount ctx.gl + 1
    rw [drawCount_append, drawCount_draw_ui]
    simp [drawCount, List.countP_cons, isDraw]

/-- C4: `draw_ui` forwards the rendered UI draw list into the batch in list
order — for each command a scissor update from its clipping zone (cast to
`i32`, cleared when absent) followed by its geometry — after binding the
font texture, and resets the texture binding after the last command. -/
theorem draw_ui_forwards_commands (ctx : DrawContext) :
    ctx.draw_ui.gl =
      ctx.gl ++ [GlCommand.texture (some ctx.font_texture)]
        ++ ((ctx.ui.render []).map uiCommandTrace).join
        ++ [GlCommand.texture none] :=
  draw_ui_gl_eq ctx

/-- C5: the two swaps in `draw_ui` round-trip — after `draw_ui` the
persistent `ui_draw_list` holds exactly the list obtained by clearing it
and rendering the UI into it. -/
theorem draw_ui_list_roundtrip (ctx : DrawContext) :
    ctx.draw_ui.ui_draw_list = ctx.ui.render [] := rfl

/-- C6: `draw_circle` enqueues a fan of exactly 22 vertices — the centre
followed by 21 rim vertices at angles `2 * pi * i / 20` at distance `r`,
the first and last rim vertex coinciding when `cos` and `sin` agree at
angle 0 and at full turn — with exactly the 60 indices `(0, i+1, i+2)` for
`i = 0 .. 19`, all below 22, and no texture bound. -/
theorem draw_circle_fan_spec (F : FloatOps) (ctx : DrawContext) (x y r : ℚ)
    (c : Color)
    (hcos : F.cos (circleAngle F NUM_DIVISIONS) = F.cos (circleAngle F 0))
    (hsin : F.sin (circleAngle F NUM_DIVISIONS) = F.sin (circleAngle F 0)) :
    (ctx.draw_circle F x y r c).gl =
      ctx.gl ++ [GlCommand.texture none,
        GlCommand.geometry (circleVerticesSpec F x y r c) circleIndicesSpec] ∧
    (circleVerticesSpec F x y r c).length = 22 ∧
    circleIndicesSpec.length = 60 ∧
    (∀ j ∈ circleIndicesSpec, j < 22) ∧
    circleRimVertex F x y r c NUM_DIVISIONS = circleRimVertex F x y r c 0 := by
  refine ⟨draw_circle_gl_eq F ctx x y r c, ?_, by decide, by decide, ?_⟩
  · simp [circleVerticesSpec, NUM_DIVISIONS]
  · simp [circleRimVertex, hcos, hsin]

/-- Witness for C6: the circle fan at centre (1, 2), radius 3, with sample
float operations. -/
theorem draw_circle_fan_spec_witness :
    F0.cos (circleAngle F0 NUM_DIVISIONS) = F0.cos (circleAngle F0 0) ∧
    F0.sin (circleAngle F0 NUM_DIVISIONS) = F0.sin (circleAngle F0 0) ∧
    ((ctx0.draw_circle F0 1 2 3 red0).gl =
      ctx0.gl ++ [GlCommand.texture none,
        GlCommand.geometry (circleVerticesSpec F0 1 2 3 red0)
          circleIndicesSpec] ∧
    (circleVerticesSpec F0 1 2 3 red0).length = 22 ∧
    circleIndicesSpec.length = 60 ∧
    (∀ j ∈ circleIndicesSpec, j < 22) ∧
    circleRimVertex F0 1 2 3 red0 NUM_DIVISIONS =
      circleRimVertex F0 1 2 3 red0 0) :=
  ⟨rfl, rfl, draw_circle_fan_spec F0 ctx0 1 2 3 red0 rfl rfl⟩

/-- C7: the drawing operations are bounded — `draw_circle`'s loop runs
exactly `NUM_DIVISIONS + 1 = 21` iterations producing the 22-vertex fan in
a single geometry command, and `draw_ui`'s loop adds exactly two batch
commands per UI draw command. -/
theorem drawing_loops_bounded (F : FloatOps) (ctx : DrawContext)
    (x y r : ℚ) (c : Color) :
    NUM_DIVISIONS + 1 = 21 ∧
    (circleVerticesSpec F x y r c).length = NUM_DIVISIONS + 2 ∧
    (ctx.draw_circle F x y r c).gl.length = ctx.gl.length + 2 ∧
    ctx.draw_ui.gl.length = ctx.gl.length + 2 * ctx.ui.render_out.length + 2 := by
  refine ⟨rfl, ?_, ?_, ?_⟩
  · simp [circleVerticesSpec, NUM_DIVISIONS]
  · rw [draw_circle_gl_eq]
    simp
  · rw [draw_ui_gl_eq, List.length_append, List.length_append,
      List.length_append, ui_join_length]
    simp only [Ui.render, List.nil_append, List.length_cons, List.length_nil]
    omega

/-- C8: `perform_render_passes` first forwards the UI draw list into the
batch (after all geometry already in the trace) and only then issues the
single batched draw call, as the final command of the frame's trace. -/
theorem perform_render_passes_ui_then_flush (ctx : DrawContext) :
    ctx.perform_render_passes.gl = ctx.draw_ui.gl ++ [GlCommand.draw] ∧
    ctx.draw_ui.gl =
      ctx.gl ++ [GlCommand.texture (some ctx.font_texture)]
        ++ ((ctx.ui.render []).map uiCommandTrace).join
        ++ [GlCommand.texture none] :=
  ⟨rfl, draw_ui_gl_eq ctx⟩

/-- C9: when the computed `tlen` — the normal's length divided by half the
thickness — is below the machine epsilon, `draw_line` returns early and
leaves the context (batch trace and texture binding included) unchanged. -/
theorem draw_line_degenerate_no_geometry (F : FloatOps) (ctx : DrawContext)
    (x1 y1 x2 y2 thickness : ℚ) (c : Color)
    (h : F.sqrt (-(y2 - y1) * -(y2 - y1) + (x2 - x1) * (x2 - x1)) /
        (thickness * 0.5) < F.eps) :
    ctx.draw_line F x1 y1 x2 y2 thickness c = ctx := by
  simp only [DrawContext.draw_line]
  rw [if_pos h]

/-- Witness for C9: coincident endpoints (1, 2) — (1, 2) with thickness 3,
where `tlen = 0` is below epsilon and the context is unchanged. -/
theorem draw_line_degenerate_no_geometry_witness :
    F0.sqrt (-((2 : ℚ) - 2) * -((2 : ℚ) - 2) + ((1 : ℚ) - 1) * ((1 : ℚ) - 1)) /
        ((3 : ℚ) * 0.5) < F0.eps ∧
    ctx0.draw_line F0 1 2 1 2 3 red0 = ctx0 :=
  ⟨by norm_num [F0], draw_line_degenerate_no_geometry F0 ctx0 1 2 1 2 3 red0
    (by norm_num [F0])⟩

/-- C10: `draw_texture_rec` maps the quad's texture coordinates to the
source sub-rectangle bounds divided by the texture size, while
`draw_texture` maps the full (0,0)–(1,1) range onto a quad of the
texture's own size; both bind the given texture before the geometry. -/
theorem draw_texture_uv_spec (ctx : DrawContext) (tex : Texture2D)
    (x y w h sx sy sw sh : ℚ) (c : Color) :
    (ctx.draw_texture_rec tex x y w h sx sy sw sh c).gl =
      ctx.gl ++ [GlCommand.texture (some tex),
        GlCommand.geometry
          [Vertex.new x y 0 (sx / tex.width) (sy / tex.height) c,
           Vertex.new (x + w) y 0 ((sx + sw) / tex.width) (sy / tex.height) c,
           Vertex.new (x + w) (y + h) 0 ((sx + sw) / tex.width)
             ((sy + sh) / tex.height) c,
           Vertex.new x (y + h) 0 (sx / tex.width) ((sy + sh) / tex.height) c]
          [0, 1, 2, 0, 2, 3]] ∧
    (ctx.draw_texture tex x y c).gl =
      ctx.gl ++ [GlCommand.texture (some tex),
        GlCommand.geometry
          [Vertex.new x y 0 0 0 c,
           Vertex.new (x + tex.width) y 0 1 0 c,
           Vertex.new (x + tex.width) (y + tex.height) 0 1 1 c,
           Vertex.new x (y + tex.height) 0 0 1 c]
          [0, 1, 2, 0, 2, 3]] :=
  ⟨rfl, rfl⟩
